import Mathlib

/-
Verification of the FingerPrint library (src/lib/FingerPrint/FingerPrint.cpp)
against its natural-language specification.

The serial transport is modelled as a list of read events: each call to
`_readByte` consumes the next event, where `some b` is a byte delivered
before the timeout and `none` is a timeout.  Reading past the end of the
list is a timeout.  The black-box Adafruit sensor primitives (getImage,
image2Tz, createModel, getStructuredPacket) are modelled as oracles:
lists of result codes consumed in order, with a fixed default when the
oracle is exhausted.  Machine integers are Nat with explicit `% 2^w`
where the C code can overflow (uint16_t checksums and lengths, the
uint8_t poll counters).
-/

set_option maxRecDepth 8192

namespace FP

/-- A byte value (uint8_t), represented as Nat; concrete values are < 256. -/
abbrev Byte := Nat

/-- One result of `_readByte`: `some b` = byte delivered, `none` = timeout. -/
abbrev ReadEvt := Option Byte

-- Result and packet-type codes from Adafruit_Fingerprint.h.
def FINGERPRINT_OK : Byte := 0x00
def FINGERPRINT_PACKETRECIEVEERR : Byte := 0x01
def FINGERPRINT_NOFINGER : Byte := 0x02
def FINGERPRINT_IMAGEMESS : Byte := 0x06
def FINGERPRINT_FEATUREFAIL : Byte := 0x07
def FINGERPRINT_ENROLLMISMATCH : Byte := 0x0A
def FINGERPRINT_TIMEOUT : Byte := 0xFF
def FINGERPRINT_COMMANDPACKET : Byte := 0x1
def FINGERPRINT_DATAPACKET : Byte := 0x2
def FINGERPRINT_ACKPACKET : Byte := 0x7
def FINGERPRINT_ENDDATAPACKET : Byte := 0x8

/-- FingerPrint::TEMPLATE_SIZE (FingerPrint.h). -/
def TEMPLATE_SIZE : Nat := 512

/-- FingerPrint::HASH_SIZE (FingerPrint.h). -/
def HASH_SIZE : Nat := 32

/-- One `_readByte` call on the event stream: consumes the next event;
an exhausted stream is a timeout. -/
def readByteEvt : List ReadEvt → ReadEvt × List ReadEvt
  | [] => (none, [])
  | e :: rest => (e, rest)

/-- A run of `n` consecutive `_readByte` calls that aborts at the first
timeout (as the address/length/data read loops of `_readRawTemplate` do):
returns `none` if any read timed out, together with the remaining stream. -/
def readNBytes : Nat → List ReadEvt → Option (List Byte) × List ReadEvt
  | 0, s => (some [], s)
  | n + 1, s =>
    match readByteEvt s with
    | (none, s1) => (none, s1)
    | (some b, s1) =>
      match readNBytes n s1 with
      | (none, s2) => (none, s2)
      | (some bs, s2) => (some (b :: bs), s2)

/-- Outcome of one iteration of the manual packet read of
`_readRawTemplate` (FingerPrint.cpp lines 87-170). -/
inductive PacketOutcome where
  | headerTimeout
  | badHeader
  | hardTimeout
  | dataFrame (last : Bool) (payload : List Byte)
  | ackFrame
  | unexpected
deriving DecidableEq

/-- The payload and discarded-checksum reads of a Data/EndData packet
(FingerPrint.cpp lines 137-152): read `min dataLen room` data bytes
(the loop of line 141 stops both at `dataLen` and at TEMPLATE_SIZE),
then read and discard the two checksum bytes. -/
def readPayloadPhase (room dataLen : Nat) (last : Bool) (s : List ReadEvt) :
    PacketOutcome × List ReadEvt :=
  match readNBytes (min dataLen room) s with
  | (none, s6) => (.hardTimeout, s6)
  | (some payload, s6) => (.dataFrame last payload, (readByteEvt (readByteEvt s6).2).2)

/-- Dispatch on the packet-type byte once type and length were read
(FingerPrint.cpp lines 129-170): `packetLen` is `(len_high << 8) | len_low`
and `dataLen` the uint16_t `packetLen - 2`; an Ack packet reads and
discards `packetLen` bytes and fails; any other type fails. -/
def readTypedPhase (room : Nat) (ptype : Byte) (lenBytes : List Byte)
    (s5 : List ReadEvt) : PacketOutcome × List ReadEvt :=
  if ptype = FINGERPRINT_DATAPACKET ∨ ptype = FINGERPRINT_ENDDATAPACKET then
    readPayloadPhase room
      ((((lenBytes.getD 0 0) <<< 8 ||| lenBytes.getD 1 0) + 65534) % 65536)
      (ptype = FINGERPRINT_ENDDATAPACKET) s5
  else if ptype = FINGERPRINT_ACKPACKET then
    (.ackFrame, s5.drop ((lenBytes.getD 0 0) <<< 8 ||| lenBytes.getD 1 0))
  else (.unexpected, s5)

/-- Body of one packet read once the two header bytes `x1 x2` were
delivered (FingerPrint.cpp lines 101-170): header check, address (4
bytes, discarded), type, length, then `readTypedPhase`; any timeout here
is a hard timeout. -/
def readPacketBody (room : Nat) (x1 x2 : Byte) (s : List ReadEvt) :
    PacketOutcome × List ReadEvt :=
  if x1 ≠ 0xEF ∨ x2 ≠ 0x01 then (.badHeader, s)
  else
    match readNBytes 4 s with
    | (none, s3) => (.hardTimeout, s3)
    | (some _, s3) =>
      match readByteEvt s3 with
      | (none, s4) => (.hardTimeout, s4)
      | (some ptype, s4) =>
        match readNBytes 2 s4 with
        | (none, s5) => (.hardTimeout, s5)
        | (some lenBytes, s5) => readTypedPhase room ptype lenBytes s5

/-- One iteration of the packet-read loop of `_readRawTemplate`
(FingerPrint.cpp lines 87-170): both header bytes are read first
(lines 88-89), then the branch on timeout/mismatch, then address, type,
length, payload and discarded checksum. -/
def readPacket (room : Nat) : List ReadEvt → PacketOutcome × List ReadEvt
  | [] => (.headerTimeout, [])
  | [_] => (.headerTimeout, [])
  | e1 :: e2 :: rest =>
    match e1, e2 with
    | some x1, some x2 => readPacketBody room x1 x2 rest
    | _, _ => (.headerTimeout, rest)

/-- Zero-padding of the output buffer to TEMPLATE_SIZE
(FingerPrint.cpp lines 95 and 173-176). -/
def padTemplate (acc : List Byte) : List Byte :=
  acc ++ List.replicate (TEMPLATE_SIZE - acc.length) 0

lemma readByteEvt_rest_le (s : List ReadEvt) :
    (readByteEvt s).2.length ≤ s.length := by
  cases s <;> simp [readByteEvt]

lemma readNBytes_rest_le (n : Nat) (s : List ReadEvt) :
    (readNBytes n s).2.length ≤ s.length := by
  induction n generalizing s with
  | zero => simp [readNBytes]
  | succ n ih =>
    cases s with
    | nil => simp [readNBytes, readByteEvt]
    | cons e rest =>
      cases e with
      | none => simp [readNBytes, readByteEvt]
      | some b =>
        simp only [readNBytes, readByteEvt]
        have h := ih rest
        rcases hr : readNBytes n rest with ⟨o, s2⟩
        rw [hr] at h
        cases o <;> simp_all <;> omega

lemma readNBytes_some_length {n : Nat} {s : List ReadEvt} {bs : List Byte}
    {s' : List ReadEvt} (h : readNBytes n s = (some bs, s')) : bs.length = n := by
  induction n generalizing s bs s' with
  | zero => simp [readNBytes] at h; simp [h.1]
  | succ n ih =>
    cases s with
    | nil => simp [readNBytes, readByteEvt] at h
    | cons e rest =>
      cases e with
      | none => simp [readNBytes, readByteEvt] at h
      | some b =>
        simp only [readNBytes, readByteEvt] at h
        rcases hr : readNBytes n rest with ⟨o, s2⟩
        rw [hr] at h
        cases o with
        | none => simp at h
        | some bs0 =>
          simp at h
          rcases h with ⟨h1, _⟩
          subst h1
          simp [ih hr]

lemma readPayloadPhase_rest_le (room dataLen : Nat) (last : Bool) (s : List ReadEvt) :
    (readPayloadPhase room dataLen last s).2.length ≤ s.length := by
  unfold readPayloadPhase
  split
  next s6 h6 =>
    have l6 : s6.length ≤ s.length := by
      have := readNBytes_rest_le (min dataLen room) s; rw [h6] at this; exact this
    show s6.length ≤ s.length
    exact l6
  next payload s6 h6 =>
    have l6 : s6.length ≤ s.length := by
      have := readNBytes_rest_le (min dataLen room) s; rw [h6] at this; exact this
    have l7 := readByteEvt_rest_le s6
    have l8 := readByteEvt_rest_le (readByteEvt s6).2
    show ((readByteEvt (readByteEvt s6).2).2).length ≤ s.length
    omega

lemma readTypedPhase_rest_le (room : Nat) (ptype : Byte) (lenBytes : List Byte)
    (s5 : List ReadEvt) : (readTypedPhase room ptype lenBytes s5).2.length ≤ s5.length := by
  unfold readTypedPhase
  split
  · exact readPayloadPhase_rest_le _ _ _ _
  · split
    · have hd := List.length_drop (((lenBytes.getD 0 0) <<< 8 ||| lenBytes.getD 1 0)) s5
      show (s5.drop ((lenBytes.getD 0 0) <<< 8 ||| lenBytes.getD 1 0)).length ≤ s5.length
      omega
    · show s5.length ≤ s5.length
      exact le_rfl

lemma readPacketBody_rest_le (room : Nat) (x1 x2 : Byte) (s : List ReadEvt) :
    (readPacketBody room x1 x2 s).2.length ≤ s.length := by
  unfold readPacketBody
  split
  · simp
  · split
    next s3 h3 =>
      have l3 : s3.length ≤ s.length := by
        have := readNBytes_rest_le 4 s; rw [h3] at this; exact this
      show s3.length ≤ s.length
      exact l3
    next a3 s3 h3 =>
      have l3 : s3.length ≤ s.length := by
        have := readNBytes_rest_le 4 s; rw [h3] at this; exact this
      split
      next s4 h4 =>
        have l4 : s4.length ≤ s3.length := by
          have := readByteEvt_rest_le s3; rw [h4] at this; exact this
        show s4.length ≤ s.length
        omega
      next ptype s4 h4 =>
        have l4 : s4.length ≤ s3.length := by
          have := readByteEvt_rest_le s3; rw [h4] at this; exact this
        split
        next s5 h5 =>
          have l5 : s5.length ≤ s4.length := by
            have := readNBytes_rest_le 2 s4; rw [h5] at this; exact this
          show s5.length ≤ s.length
          omega
        next lenBytes s5 h5 =>
          have l5 : s5.length ≤ s4.length := by
            have := readNBytes_rest_le 2 s4; rw [h5] at this; exact this
          have := readTypedPhase_rest_le room ptype lenBytes s5
          show (readTypedPhase room ptype lenBytes s5).2.length ≤ s.length
          omega

lemma readPayloadPhase_payload_le {room dataLen : Nat} {b last : Bool}
    {s : List ReadEvt} {p : List Byte} {s' : List ReadEvt}
    (h : readPayloadPhase room dataLen last s = (.dataFrame b p, s')) :
    p.length ≤ room := by
  unfold readPayloadPhase at h
  split at h
  · simp at h
  next payload s6 h6 =>
    have hl := readNBytes_some_length h6
    simp only [Prod.mk.injEq, PacketOutcome.dataFrame.injEq] at h
    rcases h with ⟨⟨_, hp⟩, _⟩
    subst hp
    omega

lemma readTypedPhase_payload_le {room : Nat} {ptype : Byte} {lenBytes : List Byte}
    {s5 : List ReadEvt} {b : Bool} {p : List Byte} {s' : List ReadEvt}
    (h : readTypedPhase room ptype lenBytes s5 = (.dataFrame b p, s')) :
    p.length ≤ room := by
  unfold readTypedPhase at h
  split at h
  · exact readPayloadPhase_payload_le h
  · split at h <;> simp at h

lemma readPacketBody_payload_le {room : Nat} {x1 x2 : Byte} {s : List ReadEvt}
    {last : Bool} {p : List Byte} {s' : List ReadEvt}
    (h : readPacketBody room x1 x2 s = (.dataFrame last p, s')) : p.length ≤ room := by
  unfold readPacketBody at h
  split at h
  · simp at h
  · split at h
    · simp at h
    next a3 s3 h3 =>
      split at h
      · simp at h
      next ptype s4 h4 =>
        split at h
        · simp at h
        next lenBytes s5 h5 =>
          exact readTypedPhase_payload_le h

lemma readPacket_rest_lt {room : Nat} {s : List ReadEvt} {last : Bool}
    {p : List Byte} {s' : List ReadEvt}
    (h : readPacket room s = (.dataFrame last p, s')) : s'.length < s.length := by
  match s with
  | [] => simp [readPacket] at h
  | [e] => simp [readPacket] at h
  | e1 :: e2 :: rest =>
    cases e1 with
    | none => simp [readPacket] at h
    | some x1 =>
      cases e2 with
      | none => simp [readPacket] at h
      | some x2 =>
        simp only [readPacket] at h
        have := readPacketBody_rest_le room x1 x2 rest
        rw [h] at this
        simp only [List.length_cons] at *
        omega

lemma readPacket_payload_le {room : Nat} {s : List ReadEvt} {last : Bool}
    {p : List Byte} {s' : List ReadEvt}
    (h : readPacket room s = (.dataFrame last p, s')) : p.length ≤ room := by
  match s with
  | [] => simp [readPacket] at h
  | [e] => simp [readPacket] at h
  | e1 :: e2 :: rest =>
    cases e1 with
    | none => simp [readPacket] at h
    | some x1 =>
      cases e2 with
      | none => simp [readPacket] at h
      | some x2 =>
        simp only [readPacket] at h
        exact readPacketBody_payload_le h

/-- The packet-read loop of `_readRawTemplate` (FingerPrint.cpp lines
84-190): loops while no EndData frame was seen and fewer than
TEMPLATE_SIZE bytes were accumulated; a header-read timeout with
accumulated data zero-pads and succeeds, with no data it is a hard
timeout; the final buffer is zero-padded to TEMPLATE_SIZE. -/
def readTemplateLoop (s : List ReadEvt) (acc : List Byte) : Byte × List Byte :=
  if TEMPLATE_SIZE ≤ acc.length then (FINGERPRINT_OK, padTemplate acc)
  else
    match hp : readPacket (TEMPLATE_SIZE - acc.length) s with
    | (.headerTimeout, _) =>
      if 0 < acc.length then (FINGERPRINT_OK, padTemplate acc)
      else (FINGERPRINT_TIMEOUT, acc)
    | (.badHeader, _) => (FINGERPRINT_PACKETRECIEVEERR, acc)
    | (.hardTimeout, _) => (FINGERPRINT_TIMEOUT, acc)
    | (.ackFrame, _) => (FINGERPRINT_PACKETRECIEVEERR, acc)
    | (.unexpected, _) => (FINGERPRINT_PACKETRECIEVEERR, acc)
    | (.dataFrame true payload, _) => (FINGERPRINT_OK, padTemplate (acc ++ payload))
    | (.dataFrame false payload, s2) => readTemplateLoop s2 (acc ++ payload)
termination_by s.length
decreasing_by exact readPacket_rest_lt hp

/-- FingerPrint::_readRawTemplate (FingerPrint.cpp lines 52-191).  The
UpChar command/ack exchange goes through the external Adafruit library;
`ackResult` is the result of `getStructuredPacket` and `ackData0` the
first ack payload byte.  Returns the status byte and the bytes written
into the caller's 512-byte buffer. -/
def readRawTemplate (ackResult ackData0 : Byte) (s : List ReadEvt) : Byte × List Byte :=
  if ackResult ≠ FINGERPRINT_OK then (ackResult, [])
  else if ackData0 ≠ FINGERPRINT_OK then (ackData0, [])
  else readTemplateLoop s []

/-- One frame as assembled by `uploadTemplateToBuffer` before being put
on the wire: a packet type byte and a payload. -/
structure WireFrame where
  ptype : Byte
  payload : List Byte
deriving DecidableEq

/-- The byte sequence `uploadTemplateToBuffer` writes for one frame
(FingerPrint.cpp lines 536-545 for the command packet and 579-588 for the
data packets): header 0xEF 0x01, address 0xFF×4, type, big-endian length
(payload length + 2 as uint16_t), payload, big-endian checksum
(uint16_t sum of type, length and payload bytes, lines 530-534/573-577). -/
def encodeFrame (f : WireFrame) : List Byte :=
  let dataLen := (f.payload.length + 2) % 65536
  let sum := f.payload.foldl (fun a b => (a + b) % 65536) ((f.ptype + dataLen) % 65536)
  [0xEF, 0x01] ++ [0xFF, 0xFF, 0xFF, 0xFF] ++ [f.ptype] ++
    [(dataLen >>> 8) &&& 0xFF, dataLen &&& 0xFF] ++ f.payload ++
    [(sum >>> 8) &&& 0xFF, sum &&& 0xFF]

/-- The data-packet loop of `uploadTemplateToBuffer` (FingerPrint.cpp
lines 562-594): splits the template into chunks of PACKET_SIZE = 128,
every chunk but the last typed Data, the last typed EndData. -/
def uploadChunks (templateData : List Byte) (bytesSent : Nat) : List WireFrame :=
  if bytesSent < TEMPLATE_SIZE then
    let chunkSize := min (TEMPLATE_SIZE - bytesSent) 128
    let ptype := if TEMPLATE_SIZE ≤ bytesSent + chunkSize
      then FINGERPRINT_ENDDATAPACKET else FINGERPRINT_DATAPACKET
    ⟨ptype, (templateData.drop bytesSent).take chunkSize⟩ ::
      uploadChunks templateData (bytesSent + chunkSize)
  else []
termination_by TEMPLATE_SIZE - bytesSent
decreasing_by simp [TEMPLATE_SIZE] at *; omega

/-- FingerPrint::uploadTemplateToBuffer (FingerPrint.cpp lines 512-598).
`serialSet` models whether `_serial` is non-null; `ackResult`/`ackData0`
are the result of `getStructuredPacket` on the DownChar ack and its first
payload byte.  Returns the status byte and the frames written, in order
(the DownChar command packet first, then — on ack success — the data
packets). -/
def uploadTemplateToBuffer (serialSet : Bool) (ackResult ackData0 : Byte)
    (templateData : List Byte) (bufferID : Byte) : Byte × List WireFrame :=
  if ¬ serialSet then (FINGERPRINT_PACKETRECIEVEERR, [])
  else
    let cmdFrame : WireFrame := ⟨FINGERPRINT_COMMANDPACKET, [0x09, bufferID]⟩
    if ackResult ≠ FINGERPRINT_OK ∨ ackData0 ≠ FINGERPRINT_OK then (ackData0, [cmdFrame])
    else (FINGERPRINT_OK, cmdFrame :: uploadChunks templateData 0)

/-- Consume the next oracle result from a list, with a default when the
oracle is exhausted (the physical sensor never stops answering; theorems
always supply enough results). -/
def nextResult (dflt : Byte) : List Byte → Byte × List Byte
  | [] => (dflt, [])
  | r :: rest => (r, rest)

/-- Consume the next structured-packet ack: `getStructuredPacket` result
code paired with the ack payload bytes. -/
def nextAck : List (Byte × List Byte) → (Byte × List Byte) × List (Byte × List Byte)
  | [] => ((FINGERPRINT_TIMEOUT, []), [])
  | a :: rest => (a, rest)

/-- The quality-seeking capture loop of `matchWithTemplate`
(FingerPrint.cpp lines 613-640).  `imgs` is the oracle of `getImage`
results, `tzs` of `image2Tz` results, `t` the uint8_t `timeout` counter
(all its increments are mod 256).  On an exhausted `imgs` oracle no
finger ever appears, the counter passes the bound of 200 and the loop
takes its `return 1` exit, so the model returns `.error` directly.
`.error` models `return 1`; `.ok` the `break` with the remaining
oracles. -/
def qualityLoop : List Byte → List Byte → Nat → Except Unit (List Byte × List Byte)
  | [], _, _ => .error ()
  | p :: imgs, tzs, t =>
    if p = FINGERPRINT_OK then
      match nextResult FINGERPRINT_TIMEOUT tzs with
      | (tz, tzs1) =>
        if tz = FINGERPRINT_OK then .ok (imgs, tzs1)
        else if tz = FINGERPRINT_IMAGEMESS ∨ tz = FINGERPRINT_FEATUREFAIL then
          if (t + 1) % 256 > 200 then .error ()
          else qualityLoop imgs tzs1 (((t + 1) % 256 + 1) % 256)
        else .ok (imgs, tzs1)
    else
      if t > 200 then .error () else qualityLoop imgs tzs ((t + 1) % 256)

/-- The `while (getImage != OK)` finger-wait loop with uint8_t counter
bound 200 (FingerPrint.cpp lines 749-755 and 773-779).  `.error` = the
loop's `return 1`, taken directly when the `imgs` oracle is exhausted
(no finger ever appears and the counter passes the bound). -/
def fingerWaitLoop : List Byte → Nat → Except Unit (List Byte)
  | [], _ => .error ()
  | p :: imgs, t =>
    if p = FINGERPRINT_OK then .ok imgs
    else if t > 200 then .error () else fingerWaitLoop imgs ((t + 1) % 256)

/-- The retry image-wait loop of `matchWithTemplate` with counter bound
100 (FingerPrint.cpp lines 693-700).  `.error` = its `return 4`, taken
directly when the `imgs` oracle is exhausted. -/
def retryWaitLoop : List Byte → Nat → Except Unit (List Byte)
  | [], _ => .error ()
  | p :: imgs, t =>
    if p = FINGERPRINT_OK then .ok imgs
    else if t > 100 then .error () else retryWaitLoop imgs ((t + 1) % 256)

/-- The `while (getImage() != FINGERPRINT_NOFINGER)` finger-removal wait
(e.g. FingerPrint.cpp lines 679-681): consumes getImage results until one
reports no finger. -/
def waitRemoval : List Byte → List Byte
  | [] => []
  | p :: imgs => if p = FINGERPRINT_NOFINGER then imgs else waitRemoval imgs

/-- Observable actions of `matchWithTemplate`: issuing the match command
(writeStructuredPacket of the 0x03 packet) and completing a
finger-removal wait loop. -/
inductive MEvent where
  | matchCmd
  | removalWait
deriving DecidableEq

/-- Result of a `matchWithTemplate` run: the returned status byte, the
value written through the `score` out-parameter (`none` if never
written), and the ordered trace of observable actions. -/
structure MatchResult where
  code : Byte
  score : Option Nat
  trace : List MEvent
deriving DecidableEq

/-- FingerPrint::matchWithTemplate (FingerPrint.cpp lines 601-739).
`upSerial`, `upAckResult`, `upAckData0` feed the inner
`uploadTemplateToBuffer` call; `imgs`/`tzs` are the getImage/image2Tz
oracles, threaded through the capture loops in program order; `acks` the
match-command ack oracle. -/
def matchWithTemplate (upSerial : Bool) (upAckResult upAckData0 : Byte)
    (storedTemplate : List Byte) (imgs tzs : List Byte)
    (acks : List (Byte × List Byte)) : MatchResult :=
  match qualityLoop imgs tzs 0 with
  | .error _ => ⟨1, none, []⟩
  | .ok (imgs1, tzs1) =>
    if (uploadTemplateToBuffer upSerial upAckResult upAckData0 storedTemplate 2).1
        ≠ FINGERPRINT_OK then
      ⟨3, none, []⟩
    else
      match nextAck acks with
      | (ack1, acks1) =>
        if ack1.1 ≠ FINGERPRINT_OK then ⟨5, none, [.matchCmd]⟩
        else if ack1.2.getD 0 0 = FINGERPRINT_OK then
          ⟨0, some ((ack1.2.getD 1 0) <<< 8 ||| ack1.2.getD 2 0),
            [.matchCmd, .removalWait]⟩
        else if ack1.2.getD 0 0 = FINGERPRINT_ENROLLMISMATCH then
          match retryWaitLoop imgs1 0 with
          | .error _ => ⟨4, none, [.matchCmd]⟩
          | .ok _ =>
            match nextResult FINGERPRINT_TIMEOUT tzs1 with
            | (tz, _) =>
              if tz ≠ FINGERPRINT_OK then ⟨4, none, [.matchCmd]⟩
              else
                match nextAck acks1 with
                | (ack2, _) =>
                  if ack2.1 = FINGERPRINT_OK ∧ ack2.2.getD 0 0 = FINGERPRINT_OK then
                    ⟨0, some ((ack2.2.getD 1 0) <<< 8 ||| ack2.2.getD 2 0),
                      [.matchCmd, .matchCmd, .removalWait]⟩
                  else ⟨4, none, [.matchCmd, .matchCmd, .removalWait]⟩
        else ⟨4, none, [.matchCmd, .removalWait]⟩

/-- Result of an `enrollAndGetTemplate` run: the returned status byte and
the bytes written into the caller's template buffer. -/
structure EnrollResult where
  code : Byte
  template : List Byte
deriving DecidableEq

/-- FingerPrint::enrollAndGetTemplate (FingerPrint.cpp lines 742-818).
`imgs`/`tzs` are the getImage/image2Tz oracles, `createModelResult` the
code returned by the external `createModel`, and `dlAckResult`/`dlAckData0`/
`dlStream` feed the `_readRawTemplate` download. -/
def enrollAndGetTemplate (imgs tzs : List Byte) (createModelResult : Byte)
    (dlAckResult dlAckData0 : Byte) (dlStream : List ReadEvt) : EnrollResult :=
  match fingerWaitLoop imgs 0 with
  | .error _ => ⟨1, []⟩
  | .ok imgs1 =>
    match nextResult FINGERPRINT_TIMEOUT tzs with
    | (tz1, tzs1) =>
      if tz1 ≠ FINGERPRINT_OK then ⟨2, []⟩
      else
        match fingerWaitLoop (waitRemoval imgs1) 0 with
        | .error _ => ⟨1, []⟩
        | .ok imgs3 =>
          match nextResult FINGERPRINT_TIMEOUT tzs1 with
          | (tz2, _) =>
            if tz2 ≠ FINGERPRINT_OK then ⟨2, []⟩
            else if createModelResult = FINGERPRINT_OK then
              match readRawTemplate dlAckResult dlAckData0 dlStream with
              | (st, buf) =>
                if st ≠ FINGERPRINT_OK then ⟨4, buf⟩
                else ⟨0, buf⟩
            else if createModelResult = FINGERPRINT_ENROLLMISMATCH then ⟨3, []⟩
            else ⟨3, []⟩

/-- 2^32, the modulus of SHA-256 word arithmetic. -/
def M32 : Nat := 4294967296

/-- Rotate a 32-bit word right by `n` bit positions. -/
def rotr32 (n x : Nat) : Nat := ((x >>> n) ||| (x <<< (32 - n))) % M32

/-- SHA-256 Ch function. -/
def sha256Ch (x y z : Nat) : Nat := (x &&& y) ^^^ ((x ^^^ 0xFFFFFFFF) &&& z)

/-- SHA-256 Maj function. -/
def sha256Maj (x y z : Nat) : Nat := (x &&& y) ^^^ (x &&& z) ^^^ (y &&& z)

/-- SHA-256 Σ0. -/
def bigSigma0 (x : Nat) : Nat := rotr32 2 x ^^^ rotr32 13 x ^^^ rotr32 22 x

/-- SHA-256 Σ1. -/
def bigSigma1 (x : Nat) : Nat := rotr32 6 x ^^^ rotr32 11 x ^^^ rotr32 25 x

/-- SHA-256 σ0. -/
def smallSigma0 (x : Nat) : Nat := rotr32 7 x ^^^ rotr32 18 x ^^^ (x >>> 3)

/-- SHA-256 σ1. -/
def smallSigma1 (x : Nat) : Nat := rotr32 17 x ^^^ rotr32 19 x ^^^ (x >>> 10)

/-- The 64 SHA-256 round constants of FIPS 180-4, written in decimal. -/
def sha256K : List Nat :=
  [1116352408, 1899447441, 3049323471, 3921009573, 961987163, 1508970993,
   2453635748, 2870763221, 3624381080, 310598401, 607225278, 1426881987,
   1925078388, 2162078206, 2614888103, 3248222580, 3835390401, 4022224774,
   264347078, 604807628, 770255983, 1249150122, 1555081692, 1996064986,
   2554220882, 2821834349, 2952996808, 3210313671, 3336571891, 3584528711,
   113926993, 338241895, 666307205, 773529912, 1294757372, 1396182291,
   1695183700, 1986661051, 2177026350, 2456956037, 2730485921, 2820302411,
   3259730800, 3345764771, 3516065817, 3600352804, 4094571909, 275423344,
   430227734, 506948616, 659060556, 883997877, 958139571, 1322822218,
   1537002063, 1747873779, 1955562222, 2024104815, 2227730452, 2361852424,
   2428436474, 2756734187, 3204031479, 3329325298]

/-- The SHA-256 working state (eight 32-bit words). -/
structure Sha256State where
  w0 : Nat
  w1 : Nat
  w2 : Nat
  w3 : Nat
  w4 : Nat
  w5 : Nat
  w6 : Nat
  w7 : Nat
deriving DecidableEq

/-- The SHA-256 initial hash value of FIPS 180-4, written in decimal. -/
def sha256Init : Sha256State :=
  ⟨1779033703, 3144134277, 1013904242, 2773480762,
   1359893119, 2600822924, 528734635, 1541459225⟩

/-- One SHA-256 compression round. -/
def sha256Round (s : Sha256State) (k w : Nat) : Sha256State :=
  let t1 := (s.w7 + bigSigma1 s.w4 + sha256Ch s.w4 s.w5 s.w6 + k + w) % M32
  let t2 := (bigSigma0 s.w0 + sha256Maj s.w0 s.w1 s.w2) % M32
  ⟨(t1 + t2) % M32, s.w0, s.w1, s.w2, (s.w3 + t1) % M32, s.w4, s.w5, s.w6⟩

/-- Extend a 16-word block `n` more words of message schedule. -/
def sha256Extend (w : List Nat) : Nat → List Nat
  | 0 => w
  | n + 1 =>
    let w1 := sha256Extend w n
    let l := w1.length
    w1 ++ [(smallSigma1 (w1.getD (l - 2) 0) + w1.getD (l - 7) 0 +
            smallSigma0 (w1.getD (l - 15) 0) + w1.getD (l - 16) 0) % M32]

/-- Compress one 16-word block into the state. -/
def sha256Compress (s : Sha256State) (block : List Nat) : Sha256State :=
  let ws := sha256Extend block 48
  let f := (sha256K.zip ws).foldl (fun st kw => sha256Round st kw.1 kw.2) s
  ⟨(s.w0 + f.w0) % M32, (s.w1 + f.w1) % M32, (s.w2 + f.w2) % M32,
   (s.w3 + f.w3) % M32, (s.w4 + f.w4) % M32, (s.w5 + f.w5) % M32,
   (s.w6 + f.w6) % M32, (s.w7 + f.w7) % M32⟩

/-- Group a byte list into big-endian 32-bit words. -/
def bytesToWords : List Nat → List Nat
  | b0 :: b1 :: b2 :: b3 :: rest =>
    (b0 * 16777216 + b1 * 65536 + b2 * 256 + b3) :: bytesToWords rest
  | _ => []

/-- SHA-256 padding: append 0x80, zeros, and the 64-bit big-endian bit
length, to a multiple of 64 bytes. -/
def sha256Pad (msg : List Nat) : List Nat :=
  let L := msg.length
  let bitLen := L * 8
  msg ++ [0x80] ++ List.replicate ((119 - L % 64) % 64) 0 ++
    [(bitLen >>> 56) % 256, (bitLen >>> 48) % 256, (bitLen >>> 40) % 256,
     (bitLen >>> 32) % 256, (bitLen >>> 24) % 256, (bitLen >>> 16) % 256,
     (bitLen >>> 8) % 256, bitLen % 256]

/-- Split a byte list into 64-byte blocks. -/
def chunkBlocks (l : List Nat) : List (List Nat) :=
  if l = [] then [] else l.take 64 :: chunkBlocks (l.drop 64)
termination_by l.length
decreasing_by
  simp only [List.length_drop]
  cases l with
  | nil => simp_all
  | cons a t => simp; omega

/-- Big-endian bytes of a 32-bit word. -/
def wordBytes (w : Nat) : List Nat :=
  [(w >>> 24) % 256, (w >>> 16) % 256, (w >>> 8) % 256, w % 256]

/-- Modelled from the spec: the SHA-256 digest (FIPS 180-4) of a byte
sequence.  `readAndHashFingerprint` computes it through mbedtls
(mbedtls_sha256_starts_ret/update_ret/finish_ret, FingerPrint.cpp lines
246-251), which is an external library not part of this repository. -/
def sha256 (msg : List Nat) : List Nat :=
  let fin := (chunkBlocks (sha256Pad msg)).foldl
    (fun st b => sha256Compress st (bytesToWords b)) sha256Init
  wordBytes fin.w0 ++ wordBytes fin.w1 ++ wordBytes fin.w2 ++ wordBytes fin.w3 ++
    wordBytes fin.w4 ++ wordBytes fin.w5 ++ wordBytes fin.w6 ++ wordBytes fin.w7

/-- The digest step of FingerPrint::readAndHashFingerprint
(FingerPrint.cpp lines 245-251): the SHA-256 hash of the TEMPLATE_SIZE
template bytes.  The spec exposes this as `computeDigest`. -/
def computeDigest (templateBuffer : List Byte) : List Byte := sha256 templateBuffer

/-- FingerPrint::compareHashes (FingerPrint.cpp lines 259-261):
`memcmp(hash1, hash2, HASH_SIZE) == 0`, i.e. equality of the first
HASH_SIZE bytes.  The spec exposes this as `digestsEqual`. -/
def compareHashes (hash1 hash2 : List Byte) : Bool :=
  decide (hash1.take HASH_SIZE = hash2.take HASH_SIZE)

lemma readTemplateLoop_eq_full {s : List ReadEvt} {acc : List Byte}
    (h : TEMPLATE_SIZE ≤ acc.length) :
    readTemplateLoop s acc = (FINGERPRINT_OK, padTemplate acc) := by
  rw [readTemplateLoop.eq_def, if_pos h]

lemma readTemplateLoop_eq_headerTimeout {s : List ReadEvt} {acc : List Byte}
    (hacc : acc.length < TEMPLATE_SIZE)
    (hto : (readPacket (TEMPLATE_SIZE - acc.length) s).1 = .headerTimeout) :
    readTemplateLoop s acc =
      if 0 < acc.length then (FINGERPRINT_OK, padTemplate acc)
      else (FINGERPRINT_TIMEOUT, acc) := by
  rw [readTemplateLoop.eq_def, if_neg (by omega)]
  split
  next x heq => rfl
  next x heq => rw [heq] at hto; simp at hto
  next x heq => rw [heq] at hto; simp at hto
  next x heq => rw [heq] at hto; simp at hto
  next x heq => rw [heq] at hto; simp at hto
  next p x heq => rw [heq] at hto; simp at hto
  next p s2 heq => rw [heq] at hto; simp at hto

lemma readTemplateLoop_eq_badHeader {s : List ReadEvt} {acc : List Byte}
    (hacc : acc.length < TEMPLATE_SIZE)
    (h : (readPacket (TEMPLATE_SIZE - acc.length) s).1 = .badHeader) :
    readTemplateLoop s acc = (FINGERPRINT_PACKETRECIEVEERR, acc) := by
  rw [readTemplateLoop.eq_def, if_neg (by omega)]
  split <;> rename_i heq <;> rw [heq] at h <;> simp_all

lemma readTemplateLoop_eq_hardTimeout {s : List ReadEvt} {acc : List Byte}
    (hacc : acc.length < TEMPLATE_SIZE)
    (h : (readPacket (TEMPLATE_SIZE - acc.length) s).1 = .hardTimeout) :
    readTemplateLoop s acc = (FINGERPRINT_TIMEOUT, acc) := by
  rw [readTemplateLoop.eq_def, if_neg (by omega)]
  split <;> rename_i heq <;> rw [heq] at h <;> simp_all

lemma readTemplateLoop_eq_ackFrame {s : List ReadEvt} {acc : List Byte}
    (hacc : acc.length < TEMPLATE_SIZE)
    (h : (readPacket (TEMPLATE_SIZE - acc.length) s).1 = .ackFrame) :
    readTemplateLoop s acc = (FINGERPRINT_PACKETRECIEVEERR, acc) := by
  rw [readTemplateLoop.eq_def, if_neg (by omega)]
  split <;> rename_i heq <;> rw [heq] at h <;> simp_all

lemma readTemplateLoop_eq_unexpected {s : List ReadEvt} {acc : List Byte}
    (hacc : acc.length < TEMPLATE_SIZE)
    (h : (readPacket (TEMPLATE_SIZE - acc.length) s).1 = .unexpected) :
    readTemplateLoop s acc = (FINGERPRINT_PACKETRECIEVEERR, acc) := by
  rw [readTemplateLoop.eq_def, if_neg (by omega)]
  split <;> rename_i heq <;> rw [heq] at h <;> simp_all

lemma readTemplateLoop_eq_endFrame {s s2 : List ReadEvt} {acc payload : List Byte}
    (hacc : acc.length < TEMPLATE_SIZE)
    (h : readPacket (TEMPLATE_SIZE - acc.length) s = (.dataFrame true payload, s2)) :
    readTemplateLoop s acc = (FINGERPRINT_OK, padTemplate (acc ++ payload)) := by
  rw [readTemplateLoop.eq_def, if_neg (by omega)]
  split <;> rename_i heq <;> rw [heq] at h <;> simp_all

lemma readTemplateLoop_eq_dataFrame {s s2 : List ReadEvt} {acc payload : List Byte}
    (hacc : acc.length < TEMPLATE_SIZE)
    (h : readPacket (TEMPLATE_SIZE - acc.length) s = (.dataFrame false payload, s2)) :
    readTemplateLoop s acc = readTemplateLoop s2 (acc ++ payload) := by
  rw [readTemplateLoop.eq_def, if_neg (by omega)]
  split <;> rename_i heq <;> rw [heq] at h <;> simp_all

lemma and255_eq_mod (x : Nat) : x &&& 0xFF = x % 256 := by
  have h := Nat.and_pow_two_sub_one_eq_mod x 8
  norm_num at h
  exact h

lemma shiftRight8_eq_div (x : Nat) : x >>> 8 = x / 256 := by
  have h := Nat.shiftRight_eq_div_pow x 8
  norm_num at h
  exact h

lemma byte_split_eq (d : Nat) (hd : d < 65536) :
    ((d >>> 8) &&& 0xFF) * 256 + (d &&& 0xFF) = d := by
  rw [and255_eq_mod, shiftRight8_eq_div, and255_eq_mod]
  have h1 : d / 256 % 256 = d / 256 := Nat.mod_eq_of_lt (by omega)
  rw [h1]
  omega

lemma lor_two_pow_add (n a b : Nat) (hb : b < 2 ^ n) :
    2 ^ n * a ||| b = 2 ^ n * a + b := by
  apply Nat.eq_of_testBit_eq
  intro j
  rw [Nat.testBit_or, Nat.testBit_mul_pow_two_add a hb j, Nat.testBit_mul_pow_two]
  by_cases hj : j < n
  · have hge : ¬ (j ≥ n) := by omega
    simp [hj, hge]
  · have hge : j ≥ n := by omega
    have hbf : b.testBit j = false :=
      Nat.testBit_lt_two_pow (lt_of_lt_of_le hb (Nat.pow_le_pow_right (by norm_num) hge))
    simp [hj, hge, hbf]

lemma recompose16 (d : Nat) (hd : d < 65536) :
    ((d >>> 8) &&& 0xFF) <<< 8 ||| (d &&& 0xFF) = d := by
  rw [and255_eq_mod, shiftRight8_eq_div, and255_eq_mod, Nat.shiftLeft_eq]
  have h1 : d / 256 % 256 = d / 256 := Nat.mod_eq_of_lt (by omega)
  rw [h1]
  have h2 : d % 256 < 2 ^ 8 := by omega
  have h3 := lor_two_pow_add 8 (d / 256) (d % 256) h2
  have h4 : (2 : Nat) ^ 8 * (d / 256) = d / 256 * 2 ^ 8 := by ring
  rw [h4] at h3
  rw [h3]
  omega

lemma foldl_add_mod (l : List Nat) (x : Nat) :
    l.foldl (fun a b => (a + b) % 65536) (x % 65536) = (x + l.sum) % 65536 := by
  induction l generalizing x with
  | nil => simp
  | cons b t ih =>
    simp only [List.foldl_cons, List.sum_cons]
    have h1 : (x % 65536 + b) % 65536 = (x + b) % 65536 := by omega
    rw [h1, ih (x + b)]
    ring_nf

/-- The checksum and length bytes of an encoded frame, as values. -/
lemma encodeFrame_eq (f : WireFrame) :
    encodeFrame f =
      [0xEF, 0x01, 0xFF, 0xFF, 0xFF, 0xFF, f.ptype,
        (((f.payload.length + 2) % 65536) >>> 8) &&& 0xFF,
        ((f.payload.length + 2) % 65536) &&& 0xFF] ++ f.payload ++
      [(((f.ptype + (f.payload.length + 2) % 65536 + f.payload.sum) % 65536) >>> 8) &&& 0xFF,
        ((f.ptype + (f.payload.length + 2) % 65536 + f.payload.sum) % 65536) &&& 0xFF] := by
  show ([0xEF, 0x01] ++ [0xFF, 0xFF, 0xFF, 0xFF] ++ [f.ptype] ++ _ ++ f.payload ++ _) = _
  have hs : f.payload.foldl (fun a b => (a + b) % 65536)
      ((f.ptype + (f.payload.length + 2) % 65536) % 65536) =
      (f.ptype + (f.payload.length + 2) % 65536 + f.payload.sum) % 65536 := by
    rw [foldl_add_mod f.payload (f.ptype + (f.payload.length + 2) % 65536)]
  rw [hs]
  simp

lemma uploadChunks_eq_of_512 (t : List Byte) :
    uploadChunks t 0 =
      [⟨FINGERPRINT_DATAPACKET, (t.drop 0).take 128⟩,
       ⟨FINGERPRINT_DATAPACKET, (t.drop 128).take 128⟩,
       ⟨FINGERPRINT_DATAPACKET, (t.drop 256).take 128⟩,
       ⟨FINGERPRINT_ENDDATAPACKET, (t.drop 384).take 128⟩] := by
  rw [uploadChunks.eq_def]
  norm_num [TEMPLATE_SIZE, FINGERPRINT_DATAPACKET, FINGERPRINT_ENDDATAPACKET]
  rw [uploadChunks.eq_def]
  norm_num [TEMPLATE_SIZE, FINGERPRINT_DATAPACKET, FINGERPRINT_ENDDATAPACKET]
  rw [uploadChunks.eq_def]
  norm_num [TEMPLATE_SIZE, FINGERPRINT_DATAPACKET, FINGERPRINT_ENDDATAPACKET]
  rw [uploadChunks.eq_def]
  norm_num [TEMPLATE_SIZE, FINGERPRINT_DATAPACKET, FINGERPRINT_ENDDATAPACKET]
  rw [uploadChunks.eq_def]
  norm_num [TEMPLATE_SIZE, FINGERPRINT_DATAPACKET, FINGERPRINT_ENDDATAPACKET]

lemma mem_uploadChunks_payload_le_aux (t : List Byte) :
    ∀ k n f, TEMPLATE_SIZE - n ≤ k → f ∈ uploadChunks t n → f.payload.length ≤ 128 := by
  intro k
  induction k with
  | zero =>
    intro n f hk hf
    rw [uploadChunks.eq_def] at hf
    rw [if_neg (by simp only [TEMPLATE_SIZE] at *; omega)] at hf
    simp at hf
  | succ k ih =>
    intro n f hk hf
    rw [uploadChunks.eq_def] at hf
    by_cases hn : n < TEMPLATE_SIZE
    · rw [if_pos hn] at hf
      simp only [List.mem_cons] at hf
      rcases hf with h | h
      · subst h
        simp only [List.length_take]
        omega
      · refine ih (n + min (TEMPLATE_SIZE - n) 128) f ?_ h
        simp only [TEMPLATE_SIZE] at *
        omega
    · rw [if_neg hn] at hf
      simp at hf

lemma mem_uploadChunks_payload_le (t : List Byte) (n : Nat) (f : WireFrame)
    (hf : f ∈ uploadChunks t n) : f.payload.length ≤ 128 :=
  mem_uploadChunks_payload_le_aux t (TEMPLATE_SIZE - n) n f le_rfl hf

/-- C3: for every 512-byte template, with the DownChar command
acknowledged successfully, the upload emits the command frame followed by
exactly ceil(512/128) = 4 data frames, all but the last typed Data, the
last typed EndData, with payload lengths summing to exactly 512 bytes. -/
theorem claim_C3_upload_frame_shape (t : List Byte) (bufferID : Byte)
    (h : t.length = 512) :
    (uploadTemplateToBuffer true FINGERPRINT_OK FINGERPRINT_OK t bufferID).1 =
        FINGERPRINT_OK ∧
    (uploadTemplateToBuffer true FINGERPRINT_OK FINGERPRINT_OK t bufferID).2 =
        ⟨FINGERPRINT_COMMANDPACKET, [0x09, bufferID]⟩ :: uploadChunks t 0 ∧
    (uploadChunks t 0).length = 4 ∧
    ((uploadChunks t 0).map WireFrame.ptype).getLast? = some FINGERPRINT_ENDDATAPACKET ∧
    (∀ f ∈ (uploadChunks t 0).dropLast, f.ptype = FINGERPRINT_DATAPACKET) ∧
    ((uploadChunks t 0).map (fun f => f.payload.length)).sum = 512 := by
  refine ⟨by simp [uploadTemplateToBuffer], by simp [uploadTemplateToBuffer], ?_, ?_, ?_, ?_⟩
  · rw [uploadChunks_eq_of_512]
    rfl
  · rw [uploadChunks_eq_of_512]
    rfl
  · rw [uploadChunks_eq_of_512]
    intro f hf
    simp [List.dropLast] at hf
    rcases hf with h | h | h <;> subst h <;> rfl
  · rw [uploadChunks_eq_of_512]
    simp [List.length_take, List.length_drop, h]

/-- Witness for C3 at a concrete 512-byte template. -/
theorem claim_C3_upload_frame_shape_witness :
    ((uploadTemplateToBuffer true FINGERPRINT_OK FINGERPRINT_OK
        (List.replicate 512 0xAA) 1).1 = FINGERPRINT_OK ∧
      (uploadTemplateToBuffer true FINGERPRINT_OK FINGERPRINT_OK
        (List.replicate 512 0xAA) 1).2 =
        ⟨FINGERPRINT_COMMANDPACKET, [0x09, 1]⟩ :: uploadChunks (List.replicate 512 0xAA) 0 ∧
      (uploadChunks (List.replicate 512 0xAA) 0).length = 4 ∧
      ((uploadChunks (List.replicate 512 0xAA) 0).map WireFrame.ptype).getLast? =
        some FINGERPRINT_ENDDATAPACKET ∧
      (∀ f ∈ (uploadChunks (List.replicate 512 0xAA) 0).dropLast,
        f.ptype = FINGERPRINT_DATAPACKET) ∧
      ((uploadChunks (List.replicate 512 0xAA) 0).map (fun f => f.payload.length)).sum
        = 512) :=
  claim_C3_upload_frame_shape (List.replicate 512 0xAA) 1 (by simp)

/-- C6: every frame emitted by `uploadTemplateToBuffer` — the DownChar
command frame and every data frame — is laid out as header, broadcast
address, type, a big-endian 16-bit length field equal to payload length
plus 2, the payload, and a big-endian 16-bit trailer equal to the sum of
the type byte, the length value and the payload bytes modulo 2^16. -/
theorem claim_C6_frame_encoding (serialSet : Bool) (ackResult ackData0 bufferID : Byte)
    (t : List Byte) (f : WireFrame)
    (hf : f ∈ (uploadTemplateToBuffer serialSet ackResult ackData0 t bufferID).2) :
    ∃ lh ll sh sl,
      encodeFrame f = [0xEF, 0x01, 0xFF, 0xFF, 0xFF, 0xFF, f.ptype, lh, ll] ++
        f.payload ++ [sh, sl] ∧
      lh * 256 + ll = f.payload.length + 2 ∧
      sh * 256 + sl = (f.ptype + (f.payload.length + 2) + f.payload.sum) % 65536 := by
  have hlen : f.payload.length ≤ 128 := by
    unfold uploadTemplateToBuffer at hf
    split at hf
    · simp at hf
    · split at hf
      · simp at hf
        subst hf
        simp
      · simp only [List.mem_cons] at hf
        rcases hf with h | h
        · subst h; simp
        · exact mem_uploadChunks_payload_le t 0 f h
  have hd : (f.payload.length + 2) % 65536 = f.payload.length + 2 :=
    Nat.mod_eq_of_lt (by omega)
  refine ⟨_, _, _, _, encodeFrame_eq f, ?_, ?_⟩
  · rw [hd]
    exact byte_split_eq (f.payload.length + 2) (by omega)
  · rw [hd]
    exact byte_split_eq ((f.ptype + (f.payload.length + 2) + f.payload.sum) % 65536)
      (Nat.mod_lt _ (by norm_num))

/-- Witness for C6 at the command frame of a concrete run. -/
theorem claim_C6_frame_encoding_witness :
    ∃ lh ll sh sl,
      encodeFrame ⟨FINGERPRINT_COMMANDPACKET, [0x09, 2]⟩ =
        [0xEF, 0x01, 0xFF, 0xFF, 0xFF, 0xFF,
          (⟨FINGERPRINT_COMMANDPACKET, [0x09, 2]⟩ : WireFrame).ptype, lh, ll] ++
        (⟨FINGERPRINT_COMMANDPACKET, [0x09, 2]⟩ : WireFrame).payload ++ [sh, sl] ∧
      lh * 256 + ll =
        (⟨FINGERPRINT_COMMANDPACKET, [0x09, 2]⟩ : WireFrame).payload.length + 2 ∧
      sh * 256 + sl =
        ((⟨FINGERPRINT_COMMANDPACKET, [0x09, 2]⟩ : WireFrame).ptype +
          ((⟨FINGERPRINT_COMMANDPACKET, [0x09, 2]⟩ : WireFrame).payload.length + 2) +
          (⟨FINGERPRINT_COMMANDPACKET, [0x09, 2]⟩ : WireFrame).payload.sum) % 65536 :=
  claim_C6_frame_encoding true FINGERPRINT_OK FINGERPRINT_OK 2 [] _ (by simp [uploadTemplateToBuffer])

lemma readNBytes_exact (l : List Byte) (r : List ReadEvt) :
    readNBytes l.length (l.map some ++ r) = (some l, r) := by
  induction l with
  | nil => simp [readNBytes]
  | cons b t ih => simp [readNBytes, readByteEvt, ih]

lemma readPacket_cons (room : Nat) (x1 x2 : Byte) (rest : List ReadEvt) :
    readPacket room (some x1 :: some x2 :: rest) = readPacketBody room x1 x2 rest := rfl

lemma readPacketBody_exact (room : Nat) (ptype lh ll : Byte) (rest : List ReadEvt) :
    readPacketBody room 0xEF 0x01
      (some 0xFF :: some 0xFF :: some 0xFF :: some 0xFF ::
        some ptype :: some lh :: some ll :: rest) =
      readTypedPhase room ptype [lh, ll] rest := rfl

lemma readPayloadPhase_exact (room : Nat) (last : Bool) (pl : List Byte)
    (e1 e2 : ReadEvt) (hroom : pl.length ≤ room) :
    readPayloadPhase room pl.length last (pl.map some ++ [e1, e2]) =
      (.dataFrame last pl, []) := by
  unfold readPayloadPhase
  rw [Nat.min_eq_left hroom, readNBytes_exact pl [e1, e2]]
  rfl

/-- Decoding the encoded form of a Data/EndData frame with payload at
most TEMPLATE_SIZE recovers exactly its type and payload and consumes the
whole stream. -/
lemma readPacket_encodeFrame (ptype : Byte) (payload : List Byte)
    (hty : ptype = FINGERPRINT_DATAPACKET ∨ ptype = FINGERPRINT_ENDDATAPACKET)
    (hlen : payload.length ≤ TEMPLATE_SIZE) :
    readPacket TEMPLATE_SIZE ((encodeFrame ⟨ptype, payload⟩).map some) =
      (.dataFrame (decide (ptype = FINGERPRINT_ENDDATAPACKET)) payload, []) := by
  have hlen' : payload.length ≤ 512 := by simpa [TEMPLATE_SIZE] using hlen
  have hmod : (payload.length + 2) % 65536 = payload.length + 2 :=
    Nat.mod_eq_of_lt (by omega)
  rw [encodeFrame_eq]
  simp only [hmod]
  set lh := ((payload.length + 2) >>> 8) &&& 0xFF with hlh
  set ll := (payload.length + 2) &&& 0xFF with hll
  set sh := (((ptype + (payload.length + 2) + payload.sum) % 65536) >>> 8) &&& 0xFF with hsh
  set sl := ((ptype + (payload.length + 2) + payload.sum) % 65536) &&& 0xFF with hsl
  have hstream :
      (([0xEF, 0x01, 0xFF, 0xFF, 0xFF, 0xFF, ptype, lh, ll] ++ payload ++ [sh, sl]).map some) =
      some 0xEF :: some 0x01 :: some 0xFF :: some 0xFF :: some 0xFF :: some 0xFF ::
        some ptype :: some lh :: some ll :: (payload.map some ++ [some sh, some sl]) := by
    simp
  rw [hstream, readPacket_cons, readPacketBody_exact]
  unfold readTypedPhase
  rw [if_pos hty]
  simp only [List.getD_cons_zero, List.getD_cons_succ]
  have hpl : lh <<< 8 ||| ll = payload.length + 2 := by
    rw [hlh, hll]
    exact recompose16 (payload.length + 2) (by omega)
  have hdl : ((lh <<< 8 ||| ll) + 65534) % 65536 = payload.length := by
    rw [hpl]
    omega
  rw [hdl]
  exact readPayloadPhase_exact TEMPLATE_SIZE _ payload (some sh) (some sl) hlen

/-- C5 counterexample: the claim quantifies over every valid framed byte
stream, the address field included (§3 allows any caller-supplied
address).  This stream carries address 00 00 00 00, a Data type, a
correct length field and a correct checksum; the decoder of
`_readRawTemplate` discards the address, and the encoder of
`uploadTemplateToBuffer` always writes the broadcast address FF FF FF FF,
so decode-then-encode does not reproduce the stream. -/
theorem claim_C5_counterexample :
    readPacket TEMPLATE_SIZE
        ([0xEF, 0x01, 0x00, 0x00, 0x00, 0x00, 0x02, 0x00, 0x02, 0x00, 0x04].map some) =
      (.dataFrame false [], []) ∧
    encodeFrame ⟨0x02, []⟩ ≠
      [0xEF, 0x01, 0x00, 0x00, 0x00, 0x00, 0x02, 0x00, 0x02, 0x00, 0x04] := by
  constructor
  · decide
  · decide

/-- C5, amended: for every valid framed byte stream that carries the
broadcast address FF FF FF FF, a Data or EndData type, a length field
equal to payload length + 2 with payload no longer than TEMPLATE_SIZE,
and the correct checksum — i.e. every stream `encodeFrame ⟨ptype, payload⟩`
with such a type and payload — decoding recovers exactly the frame
content, and re-encoding that content reproduces the original bytes. -/
theorem claim_C5_roundtrip_amended (ptype : Byte) (payload : List Byte)
    (hty : ptype = FINGERPRINT_DATAPACKET ∨ ptype = FINGERPRINT_ENDDATAPACKET)
    (hlen : payload.length ≤ TEMPLATE_SIZE) :
    readPacket TEMPLATE_SIZE ((encodeFrame ⟨ptype, payload⟩).map some) =
      (.dataFrame (decide (ptype = FINGERPRINT_ENDDATAPACKET)) payload, []) ∧
    encodeFrame ⟨if decide (ptype = FINGERPRINT_ENDDATAPACKET) = true
        then FINGERPRINT_ENDDATAPACKET else FINGERPRINT_DATAPACKET, payload⟩ =
      encodeFrame ⟨ptype, payload⟩ := by
  refine ⟨readPacket_encodeFrame ptype payload hty hlen, ?_⟩
  rcases hty with h | h
  · subst h
    norm_num [FINGERPRINT_DATAPACKET, FINGERPRINT_ENDDATAPACKET]
  · subst h
    norm_num

/-- Witness for the amended C5 at a concrete EndData frame. -/
theorem claim_C5_roundtrip_amended_witness :
    (readPacket TEMPLATE_SIZE ((encodeFrame ⟨FINGERPRINT_ENDDATAPACKET, [7, 9]⟩).map some) =
      (.dataFrame (decide ((FINGERPRINT_ENDDATAPACKET : Byte) = FINGERPRINT_ENDDATAPACKET))
        [7, 9], []) ∧
    encodeFrame ⟨if decide ((FINGERPRINT_ENDDATAPACKET : Byte) = FINGERPRINT_ENDDATAPACKET) = true
        then FINGERPRINT_ENDDATAPACKET else FINGERPRINT_DATAPACKET, [7, 9]⟩ =
      encodeFrame ⟨FINGERPRINT_ENDDATAPACKET, [7, 9]⟩) :=
  claim_C5_roundtrip_amended FINGERPRINT_ENDDATAPACKET [7, 9] (Or.inr rfl) (by decide)

/-- C1: at any point of the download loop of `_readRawTemplate` (stream
`s` still to be read, `acc` the bytes accumulated so far, fewer than
TEMPLATE_SIZE), if the next header read times out, then: with at least
one byte already accumulated the loop zero-fills the rest of the buffer
and returns FINGERPRINT_OK; with zero bytes accumulated it returns the
hard FINGERPRINT_TIMEOUT. -/
theorem claim_C1_header_timeout_policy (s : List ReadEvt) (acc : List Byte)
    (hacc : acc.length < TEMPLATE_SIZE)
    (hto : (readPacket (TEMPLATE_SIZE - acc.length) s).1 = .headerTimeout) :
    readTemplateLoop s acc =
      if 0 < acc.length then
        (FINGERPRINT_OK, acc ++ List.replicate (TEMPLATE_SIZE - acc.length) 0)
      else (FINGERPRINT_TIMEOUT, acc) := by
  rw [readTemplateLoop_eq_headerTimeout hacc hto]
  rfl

/-- Witness for C1: a stream that times out immediately, once after three
accumulated bytes (degraded success) and once at the very start (hard
timeout). -/
theorem claim_C1_header_timeout_policy_witness :
    (readTemplateLoop [] [1, 2, 3] =
      if 0 < [1, 2, 3].length then
        (FINGERPRINT_OK, [1, 2, 3] ++ List.replicate (TEMPLATE_SIZE - [1, 2, 3].length) 0)
      else (FINGERPRINT_TIMEOUT, [1, 2, 3])) ∧
    (readTemplateLoop [] [] =
      if 0 < ([] : List Byte).length then
        (FINGERPRINT_OK, [] ++ List.replicate (TEMPLATE_SIZE - ([] : List Byte).length) 0)
      else (FINGERPRINT_TIMEOUT, [])) :=
  ⟨claim_C1_header_timeout_policy [] [1, 2, 3] (by decide) (by decide),
   claim_C1_header_timeout_policy [] [] (by decide) (by decide)⟩

/-- The data bytes accumulated by the packet-read loop of
`_readRawTemplate` when it exits (the `bytesRead`-long prefix that the
loop of FingerPrint.cpp lines 84-171 wrote into the buffer): `acc`
extended by the payload bytes of each frame consumed, with no zero
padding.  Follows the loop of `readTemplateLoop` step for step and
returns the accumulation at the exit point of every branch. -/
def receivedBytes (s : List ReadEvt) (acc : List Byte) : List Byte :=
  if TEMPLATE_SIZE ≤ acc.length then acc
  else
    match hp : readPacket (TEMPLATE_SIZE - acc.length) s with
    | (.headerTimeout, _) => acc
    | (.badHeader, _) => acc
    | (.hardTimeout, _) => acc
    | (.ackFrame, _) => acc
    | (.unexpected, _) => acc
    | (.dataFrame true payload, _) => acc ++ payload
    | (.dataFrame false payload, s2) => receivedBytes s2 (acc ++ payload)
termination_by s.length
decreasing_by exact readPacket_rest_lt hp

lemma receivedBytes_eq_full {s : List ReadEvt} {acc : List Byte}
    (h : TEMPLATE_SIZE ≤ acc.length) : receivedBytes s acc = acc := by
  rw [receivedBytes.eq_def, if_pos h]

lemma receivedBytes_eq_headerTimeout {s : List ReadEvt} {acc : List Byte}
    (hacc : acc.length < TEMPLATE_SIZE)
    (hto : (readPacket (TEMPLATE_SIZE - acc.length) s).1 = .headerTimeout) :
    receivedBytes s acc = acc := by
  rw [receivedBytes.eq_def, if_neg (by omega)]
  split <;> rename_i heq <;> rw [heq] at hto <;> simp_all

lemma receivedBytes_eq_endFrame {s s2 : List ReadEvt} {acc payload : List Byte}
    (hacc : acc.length < TEMPLATE_SIZE)
    (h : readPacket (TEMPLATE_SIZE - acc.length) s = (.dataFrame true payload, s2)) :
    receivedBytes s acc = acc ++ payload := by
  rw [receivedBytes.eq_def, if_neg (by omega)]
  split <;> rename_i heq <;> rw [heq] at h <;> simp_all

lemma receivedBytes_eq_dataFrame {s s2 : List ReadEvt} {acc payload : List Byte}
    (hacc : acc.length < TEMPLATE_SIZE)
    (h : readPacket (TEMPLATE_SIZE - acc.length) s = (.dataFrame false payload, s2)) :
    receivedBytes s acc = receivedBytes s2 (acc ++ payload) := by
  rw [receivedBytes.eq_def, if_neg (by omega)]
  split <;> rename_i heq <;> rw [heq] at h <;> simp_all

lemma readTemplateLoop_ok_received (n : Nat) :
    ∀ (s : List ReadEvt), s.length < n → ∀ (acc : List Byte),
    acc.length ≤ TEMPLATE_SIZE →
    (readTemplateLoop s acc).1 = FINGERPRINT_OK →
    (readTemplateLoop s acc).2 = padTemplate (receivedBytes s acc) ∧
      (receivedBytes s acc).length ≤ TEMPLATE_SIZE := by
  induction n with
  | zero => intro s hs; omega
  | succ n ih =>
    intro s hs acc hacc hok
    by_cases hfull : TEMPLATE_SIZE ≤ acc.length
    · rw [readTemplateLoop_eq_full hfull, receivedBytes_eq_full hfull]
      exact ⟨rfl, hacc⟩
    · have hlt : acc.length < TEMPLATE_SIZE := by omega
      rcases hp : readPacket (TEMPLATE_SIZE - acc.length) s with ⟨o, s2⟩
      cases o with
      | headerTimeout =>
        have he := readTemplateLoop_eq_headerTimeout hlt (by rw [hp])
        rw [receivedBytes_eq_headerTimeout hlt (by rw [hp])]
        by_cases h0 : 0 < acc.length
        · rw [if_pos h0] at he
          rw [he]
          exact ⟨rfl, hacc⟩
        · rw [if_neg h0] at he
          rw [he] at hok
          simp [FINGERPRINT_TIMEOUT, FINGERPRINT_OK] at hok
      | badHeader =>
        have he := readTemplateLoop_eq_badHeader hlt (by rw [hp])
        rw [he] at hok
        simp [FINGERPRINT_PACKETRECIEVEERR, FINGERPRINT_OK] at hok
      | hardTimeout =>
        have he := readTemplateLoop_eq_hardTimeout hlt (by rw [hp])
        rw [he] at hok
        simp [FINGERPRINT_TIMEOUT, FINGERPRINT_OK] at hok
      | ackFrame =>
        have he := readTemplateLoop_eq_ackFrame hlt (by rw [hp])
        rw [he] at hok
        simp [FINGERPRINT_PACKETRECIEVEERR, FINGERPRINT_OK] at hok
      | unexpected =>
        have he := readTemplateLoop_eq_unexpected hlt (by rw [hp])
        rw [he] at hok
        simp [FINGERPRINT_PACKETRECIEVEERR, FINGERPRINT_OK] at hok
      | dataFrame last payload =>
        have hple := readPacket_payload_le hp
        cases last with
        | true =>
          rw [readTemplateLoop_eq_endFrame hlt hp, receivedBytes_eq_endFrame hlt hp]
          refine ⟨rfl, ?_⟩
          simp only [List.length_append]
          omega
        | false =>
          rw [readTemplateLoop_eq_dataFrame hlt hp] at hok ⊢
          rw [receivedBytes_eq_dataFrame hlt hp]
          have hs2 : s2.length < n := by
            have := readPacket_rest_lt hp
            omega
          have hlen2 : (acc ++ payload).length ≤ TEMPLATE_SIZE := by
            simp only [List.length_append]
            omega
          exact ih s2 hs2 (acc ++ payload) hlen2 hok

/-- C10: whenever `_readRawTemplate` returns FINGERPRINT_OK, the whole
512-byte output buffer is defined: it is exactly `receivedBytes` — the
payload bytes the packet-read loop consumed, starting from the empty
accumulation — followed by zeros, padded to TEMPLATE_SIZE.  This holds on
the timeout-after-partial-data path and equally when an EndData frame
arrives before 512 bytes have accumulated. -/
theorem claim_C10_ok_buffer_zero_padded (ackResult ackData0 : Byte) (s : List ReadEvt)
    (hok : (readRawTemplate ackResult ackData0 s).1 = FINGERPRINT_OK) :
    (readRawTemplate ackResult ackData0 s).2 =
      receivedBytes s [] ++
        List.replicate (TEMPLATE_SIZE - (receivedBytes s []).length) 0 ∧
    (receivedBytes s []).length ≤ TEMPLATE_SIZE ∧
    ((readRawTemplate ackResult ackData0 s).2).length = TEMPLATE_SIZE := by
  unfold readRawTemplate at hok ⊢
  split at hok
  · exact absurd hok (by assumption)
  · split at hok
    · exact absurd hok (by assumption)
    · rw [if_neg (by assumption), if_neg (by assumption)]
      rcases readTemplateLoop_ok_received (s.length + 1) s (by omega) []
        (by simp [TEMPLATE_SIZE]) hok with ⟨hsh, hle⟩
      refine ⟨by simpa [padTemplate] using hsh, hle, ?_⟩
      rw [hsh]
      simp only [padTemplate, List.length_append, List.length_replicate]
      omega

/-- Witness for C10: an EndData frame delivering two bytes, arriving
before the 512-byte bound; the received bytes evaluate to exactly that
payload, so the buffer is [5, 6] followed by 510 zeros. -/
theorem claim_C10_ok_buffer_zero_padded_witness :
    receivedBytes ((encodeFrame ⟨FINGERPRINT_ENDDATAPACKET, [5, 6]⟩).map some) [] =
      [5, 6] ∧
    ((readRawTemplate FINGERPRINT_OK FINGERPRINT_OK
        ((encodeFrame ⟨FINGERPRINT_ENDDATAPACKET, [5, 6]⟩).map some)).2 =
      receivedBytes ((encodeFrame ⟨FINGERPRINT_ENDDATAPACKET, [5, 6]⟩).map some) [] ++
        List.replicate (TEMPLATE_SIZE -
          (receivedBytes ((encodeFrame ⟨FINGERPRINT_ENDDATAPACKET, [5, 6]⟩).map some)
            []).length) 0 ∧
      (receivedBytes ((encodeFrame ⟨FINGERPRINT_ENDDATAPACKET, [5, 6]⟩).map some)
        []).length ≤ TEMPLATE_SIZE ∧
      ((readRawTemplate FINGERPRINT_OK FINGERPRINT_OK
          ((encodeFrame ⟨FINGERPRINT_ENDDATAPACKET, [5, 6]⟩).map some)).2).length =
        TEMPLATE_SIZE) := by
  have hdec := readPacket_encodeFrame FINGERPRINT_ENDDATAPACKET [5, 6]
    (Or.inr rfl) (by norm_num [TEMPLATE_SIZE])
  have hrecv : receivedBytes
      ((encodeFrame ⟨FINGERPRINT_ENDDATAPACKET, [5, 6]⟩).map some) [] = [5, 6] := by
    have := @receivedBytes_eq_endFrame
      ((encodeFrame ⟨FINGERPRINT_ENDDATAPACKET, [5, 6]⟩).map some) [] [] [5, 6]
      (by norm_num [TEMPLATE_SIZE]) (by simpa using hdec)
    simpa using this
  refine ⟨hrecv, ?_⟩
  exact claim_C10_ok_buffer_zero_padded FINGERPRINT_OK FINGERPRINT_OK
    ((encodeFrame ⟨FINGERPRINT_ENDDATAPACKET, [5, 6]⟩).map some) (by
      have he := @readTemplateLoop_eq_endFrame
        ((encodeFrame ⟨FINGERPRINT_ENDDATAPACKET, [5, 6]⟩).map some) [] [] [5, 6]
        (by norm_num [TEMPLATE_SIZE]) (by simpa using hdec)
      show (readTemplateLoop
        ((encodeFrame ⟨FINGERPRINT_ENDDATAPACKET, [5, 6]⟩).map some) []).1 = FINGERPRINT_OK
      rw [he])

lemma sha256_length (msg : List Nat) : (sha256 msg).length = 32 := by
  unfold sha256 wordBytes
  simp

/-- C4: `computeDigest` (the SHA-256 step of `readAndHashFingerprint`)
maps a full 512-byte template to a 32-byte digest, deterministically (it
is a function of the template bytes); `compareHashes` (the spec's
`digestsEqual`) is true exactly on byte-for-byte equal 32-byte digests;
hence `digestsEqual(computeDigest T, computeDigest T)` holds for every
template T. -/
theorem claim_C4_digest_reflexive (t h1 h2 : List Byte)
    (ht : t.length = TEMPLATE_SIZE) (hh1 : h1.length = HASH_SIZE)
    (hh2 : h2.length = HASH_SIZE) :
    (computeDigest t).length = HASH_SIZE ∧
    compareHashes (computeDigest t) (computeDigest t) = true ∧
    (compareHashes h1 h2 = true ↔ h1 = h2) := by
  refine ⟨?_, ?_, ?_⟩
  · unfold computeDigest HASH_SIZE
    exact sha256_length t
  · unfold compareHashes
    simp
  · unfold compareHashes
    simp only [decide_eq_true_eq]
    constructor
    · intro h
      have e1 : h1.take HASH_SIZE = h1 := List.take_of_length_le (by omega)
      have e2 : h2.take HASH_SIZE = h2 := List.take_of_length_le (by omega)
      rwa [e1, e2] at h
    · intro h
      rw [h]

/-- Witness for C4 at the all-0xAA template of the spec scenario. -/
theorem claim_C4_digest_reflexive_witness :
    (computeDigest (List.replicate 512 0xAA)).length = HASH_SIZE ∧
    compareHashes (computeDigest (List.replicate 512 0xAA))
      (computeDigest (List.replicate 512 0xAA)) = true ∧
    (compareHashes (List.replicate 32 1) (List.replicate 32 2) = true ↔
      List.replicate 32 1 = List.replicate 32 2) :=
  claim_C4_digest_reflexive (List.replicate 512 0xAA)
    (List.replicate 32 1) (List.replicate 32 2) (by simp [TEMPLATE_SIZE])
    (by simp [HASH_SIZE]) (by simp [HASH_SIZE])

/-- C7 counterexample: the claim says a createModel code other than
success and mismatch is passed through verbatim, so a run where
createModel returns 0x01 should fail with 0x01; the code returns the
constant 3 on that run (FingerPrint.cpp line 798), the same value as the
mismatch branch, so the caller cannot distinguish the two. -/
theorem claim_C7_counterexample :
    (enrollAndGetTemplate [0, 2, 0] [0, 0] 0x01 0 0 []).code = 3 ∧
    (3 : Byte) ≠ 0x01 ∧
    (enrollAndGetTemplate [0, 2, 0] [0, 0] FINGERPRINT_ENROLLMISMATCH 0 0 []).code = 3 := by
  refine ⟨by decide, by decide, by decide⟩

/-- C7, amended: when the create-model step returns, success proceeds to
the template download; the distinguished mismatch code fails with 3; and
any other non-success code also fails with the same constant 3 — the raw
device code is not passed through, so the two failure kinds are not
distinguishable by the returned value. -/
theorem claim_C7_create_model_dispatch_amended (imgs tzs imgs1 tzs1 imgs3 tzs2 : List Byte)
    (hw1 : fingerWaitLoop imgs 0 = .ok imgs1)
    (htz1 : nextResult FINGERPRINT_TIMEOUT tzs = (FINGERPRINT_OK, tzs1))
    (hw2 : fingerWaitLoop (waitRemoval imgs1) 0 = .ok imgs3)
    (htz2 : nextResult FINGERPRINT_TIMEOUT tzs1 = (FINGERPRINT_OK, tzs2)) :
    (∀ dlAckResult dlAckData0 dlStream,
      enrollAndGetTemplate imgs tzs FINGERPRINT_OK dlAckResult dlAckData0 dlStream =
        (if (readRawTemplate dlAckResult dlAckData0 dlStream).1 ≠ FINGERPRINT_OK
         then ⟨4, (readRawTemplate dlAckResult dlAckData0 dlStream).2⟩
         else ⟨0, (readRawTemplate dlAckResult dlAckData0 dlStream).2⟩)) ∧
    (∀ createModelResult dlAckResult dlAckData0 dlStream,
      createModelResult ≠ FINGERPRINT_OK →
      enrollAndGetTemplate imgs tzs createModelResult dlAckResult dlAckData0 dlStream =
        ⟨3, []⟩) := by
  constructor
  · intro dlAckResult dlAckData0 dlStream
    simp only [enrollAndGetTemplate, hw1, htz1, hw2, htz2, FINGERPRINT_OK]
    norm_num
  · intro createModelResult dlAckResult dlAckData0 dlStream hcm
    simp only [enrollAndGetTemplate, hw1, htz1, hw2, htz2, FINGERPRINT_OK] at hcm ⊢
    rw [if_neg (by decide), if_neg (by decide), if_neg hcm]
    by_cases hmis : createModelResult = FINGERPRINT_ENROLLMISMATCH
    · rw [if_pos hmis]
    · rw [if_neg hmis]

/-- Witness for the amended C7: success proceeds to the download (here an
empty stream, a download timeout, stage code 4), and the codes 0x01 and
mismatch both yield 3. -/
theorem claim_C7_create_model_dispatch_amended_witness :
    (enrollAndGetTemplate [0, 2, 0] [0, 0] FINGERPRINT_OK 0 0 [] =
      (if (readRawTemplate 0 0 ([] : List ReadEvt)).1 ≠ FINGERPRINT_OK
       then ⟨4, (readRawTemplate 0 0 ([] : List ReadEvt)).2⟩
       else ⟨0, (readRawTemplate 0 0 ([] : List ReadEvt)).2⟩)) ∧
    (enrollAndGetTemplate [0, 2, 0] [0, 0] 0x01 0 0 [] = ⟨3, []⟩) :=
  ⟨(claim_C7_create_model_dispatch_amended [0, 2, 0] [0, 0] [2, 0] [0] [] []
      rfl rfl rfl rfl).1 0 0 [],
   (claim_C7_create_model_dispatch_amended [0, 2, 0] [0, 0] [2, 0] [0] [] []
      rfl rfl rfl rfl).2 0x01 0 0 [] (by decide)⟩

/-- C8 counterexample: the claim says the two finger-wait stages of
enrollment return distinguishable failure values on timeout; both stages
return the same code 1 (FingerPrint.cpp lines 752 and 776).  The first
run times out at the first wait; the second run passes the first wait
(its only getImage success is consumed there) and times out at the
second wait; both runs return 1. -/
theorem claim_C8_counterexample :
    (enrollAndGetTemplate [] [] 0 0 0 []).code = 1 ∧
    (enrollAndGetTemplate [0] [0] 0 0 0 []).code = 1 ∧
    fingerWaitLoop ([] : List Byte) 0 = .error () ∧
    fingerWaitLoop [0] 0 = .ok [] ∧
    fingerWaitLoop (waitRemoval []) 0 = .error () := by
  refine ⟨by decide, by decide, rfl, rfl, rfl⟩

/-- C8, amended: a timeout while waiting for the finger in either
enrollment stage returns the same stage-independent failure code 1; the
two stages are not distinguishable by the returned value. -/
theorem claim_C8_stage_timeouts_amended (imgs tzs : List Byte)
    (createModelResult dlAckResult dlAckData0 : Byte) (dlStream : List ReadEvt) :
    (fingerWaitLoop imgs 0 = .error () →
      enrollAndGetTemplate imgs tzs createModelResult dlAckResult dlAckData0 dlStream =
        ⟨1, []⟩) ∧
    (∀ imgs1 tzs1,
      fingerWaitLoop imgs 0 = .ok imgs1 →
      nextResult FINGERPRINT_TIMEOUT tzs = (FINGERPRINT_OK, tzs1) →
      fingerWaitLoop (waitRemoval imgs1) 0 = .error () →
      enrollAndGetTemplate imgs tzs createModelResult dlAckResult dlAckData0 dlStream =
        ⟨1, []⟩) := by
  constructor
  · intro hw
    simp only [enrollAndGetTemplate, hw]
  · intro imgs1 tzs1 hw1 htz1 hw2
    simp only [enrollAndGetTemplate, hw1, htz1, hw2, FINGERPRINT_OK]
    norm_num

/-- Witness for the amended C8: the two timeout stages, each returning 1. -/
theorem claim_C8_stage_timeouts_amended_witness :
    (enrollAndGetTemplate [] [] 0 0 0 [] = ⟨1, []⟩) ∧
    (enrollAndGetTemplate [0] [0] 0 0 0 [] = ⟨1, []⟩) :=
  ⟨(claim_C8_stage_timeouts_amended [] [] 0 0 0 []).1 rfl,
   (claim_C8_stage_timeouts_amended [0] [0] 0 0 0 []).2 [] [] rfl rfl rfl⟩

/-- C2: the verification orchestrator `matchWithTemplate`.  (1) If the
device reports match-success on the first match command, it returns 0
with the parsed big-endian score and issues exactly one match command
(no retry).  (2) If the device reports the mismatch code on the first
attempt and the single re-acquisition succeeds, it re-issues the match
exactly once and returns that retry's outcome (success with its score,
else the NoMatch code 4) as final.  (3) Any other first-attempt result
code is a hard NoMatch failure (4) with no retry.  (4) No run ever
issues more than two match commands. -/
theorem claim_C2_single_retry_policy :
    (∀ upSerial upAckResult upAckData0 storedTemplate imgs tzs imgs1 tzs1 d1 rest,
      qualityLoop imgs tzs 0 = .ok (imgs1, tzs1) →
      (uploadTemplateToBuffer upSerial upAckResult upAckData0 storedTemplate 2).1 =
        FINGERPRINT_OK →
      d1.getD 0 0 = FINGERPRINT_OK →
      matchWithTemplate upSerial upAckResult upAckData0 storedTemplate imgs tzs
          ((FINGERPRINT_OK, d1) :: rest) =
        ⟨0, some ((d1.getD 1 0) <<< 8 ||| d1.getD 2 0), [.matchCmd, .removalWait]⟩) ∧
    (∀ upSerial upAckResult upAckData0 storedTemplate imgs tzs imgs1 tzs1 d1 rest imgs2,
      qualityLoop imgs tzs 0 = .ok (imgs1, tzs1) →
      (uploadTemplateToBuffer upSerial upAckResult upAckData0 storedTemplate 2).1 =
        FINGERPRINT_OK →
      d1.getD 0 0 = FINGERPRINT_ENROLLMISMATCH →
      retryWaitLoop imgs1 0 = .ok imgs2 →
      (nextResult FINGERPRINT_TIMEOUT tzs1).1 = FINGERPRINT_OK →
      matchWithTemplate upSerial upAckResult upAckData0 storedTemplate imgs tzs
          ((FINGERPRINT_OK, d1) :: rest) =
        (if (nextAck rest).1.1 = FINGERPRINT_OK ∧
            (nextAck rest).1.2.getD 0 0 = FINGERPRINT_OK
         then ⟨0, some (((nextAck rest).1.2.getD 1 0) <<< 8 |||
            (nextAck rest).1.2.getD 2 0), [.matchCmd, .matchCmd, .removalWait]⟩
         else ⟨4, none, [.matchCmd, .matchCmd, .removalWait]⟩)) ∧
    (∀ upSerial upAckResult upAckData0 storedTemplate imgs tzs imgs1 tzs1 d1 rest,
      qualityLoop imgs tzs 0 = .ok (imgs1, tzs1) →
      (uploadTemplateToBuffer upSerial upAckResult upAckData0 storedTemplate 2).1 =
        FINGERPRINT_OK →
      d1.getD 0 0 ≠ FINGERPRINT_OK →
      d1.getD 0 0 ≠ FINGERPRINT_ENROLLMISMATCH →
      matchWithTemplate upSerial upAckResult upAckData0 storedTemplate imgs tzs
          ((FINGERPRINT_OK, d1) :: rest) =
        ⟨4, none, [.matchCmd, .removalWait]⟩) ∧
    (∀ upSerial upAckResult upAckData0 storedTemplate imgs tzs acks,
      ((matchWithTemplate upSerial upAckResult upAckData0 storedTemplate imgs tzs
          acks).trace.count .matchCmd) ≤ 2) := by
  refine ⟨?_, ?_, ?_, ?_⟩
  · intro upSerial upAckResult upAckData0 storedTemplate imgs tzs imgs1 tzs1 d1 rest
      hq hup hd
    simp only [matchWithTemplate, hq, nextAck]
    rw [if_neg (by simp [hup]), if_neg (by simp [FINGERPRINT_OK]), if_pos hd]
  · intro upSerial upAckResult upAckData0 storedTemplate imgs tzs imgs1 tzs1 d1 rest
      imgs2 hq hup hd hr htz
    simp only [matchWithTemplate, hq, nextAck, hr]
    rw [if_neg (by simp [hup]), if_neg (by simp [FINGERPRINT_OK])]
    rw [if_neg (by simp only [hd]; decide), if_pos hd]
    rcases hnr : nextResult FINGERPRINT_TIMEOUT tzs1 with ⟨tz, tzs2⟩
    rw [hnr] at htz
    simp only at htz
    rw [if_neg (by simp [htz])]
  · intro upSerial upAckResult upAckData0 storedTemplate imgs tzs imgs1 tzs1 d1 rest
      hq hup hd1 hd2
    simp only [matchWithTemplate, hq, nextAck]
    rw [if_neg (by simp [hup]), if_neg (by simp [FINGERPRINT_OK]),
      if_neg hd1, if_neg hd2]
  · intro upSerial upAckResult upAckData0 storedTemplate imgs tzs acks
    rcases hr : matchWithTemplate upSerial upAckResult upAckData0 storedTemplate imgs tzs
      acks with ⟨c, sc, tr⟩
    simp only
    unfold matchWithTemplate at hr
    repeat' split at hr
    all_goals
      simp only [MatchResult.mk.injEq] at hr
    all_goals
      obtain ⟨h1, h2, h3⟩ := hr
    all_goals
      subst h3
    all_goals decide

/-- Witness for C2: a first-attempt success (score 300 from bytes 1 and
44), a mismatch-then-success retry (score 7), a hard NoMatch on the
result code 0x09, and the two-command bound at the retry run. -/
theorem claim_C2_single_retry_policy_witness :
    (matchWithTemplate true FINGERPRINT_OK FINGERPRINT_OK [] [0] [0]
        [(FINGERPRINT_OK, [0, 1, 44])] =
      ⟨0, some (([0, 1, 44].getD 1 0) <<< 8 ||| [0, 1, 44].getD 2 0),
        [.matchCmd, .removalWait]⟩) ∧
    (matchWithTemplate true FINGERPRINT_OK FINGERPRINT_OK [] [0, 0] [0, 0]
        [(FINGERPRINT_OK, [0x0A]), (FINGERPRINT_OK, [0, 0, 7])] =
      (if (nextAck [(FINGERPRINT_OK, [0, 0, 7])]).1.1 = FINGERPRINT_OK ∧
          (nextAck [(FINGERPRINT_OK, [0, 0, 7])]).1.2.getD 0 0 = FINGERPRINT_OK
       then ⟨0, some (((nextAck [(FINGERPRINT_OK, [0, 0, 7])]).1.2.getD 1 0) <<< 8 |||
          (nextAck [(FINGERPRINT_OK, [0, 0, 7])]).1.2.getD 2 0),
          [.matchCmd, .matchCmd, .removalWait]⟩
       else ⟨4, none, [.matchCmd, .matchCmd, .removalWait]⟩)) ∧
    (matchWithTemplate true FINGERPRINT_OK FINGERPRINT_OK [] [0] [0]
        [(FINGERPRINT_OK, [0x09])] = ⟨4, none, [.matchCmd, .removalWait]⟩) ∧
    ((matchWithTemplate true FINGERPRINT_OK FINGERPRINT_OK [] [0, 0] [0, 0]
        [(FINGERPRINT_OK, [0x0A]), (FINGERPRINT_OK, [0, 0, 7])]).trace.count
      .matchCmd ≤ 2) :=
  ⟨claim_C2_single_retry_policy.1 true FINGERPRINT_OK FINGERPRINT_OK [] [0] [0] [] []
      [0, 1, 44] [] rfl (by decide) (by decide),
   claim_C2_single_retry_policy.2.1 true FINGERPRINT_OK FINGERPRINT_OK [] [0, 0] [0, 0]
      [0] [0] [0x0A] [(FINGERPRINT_OK, [0, 0, 7])] [] rfl (by decide) (by decide) rfl
      (by decide),
   claim_C2_single_retry_policy.2.2.1 true FINGERPRINT_OK FINGERPRINT_OK [] [0] [0] [] []
      [0x09] [] rfl (by decide) (by decide) (by decide),
   claim_C2_single_retry_policy.2.2.2 true FINGERPRINT_OK FINGERPRINT_OK [] [0, 0] [0, 0]
      [(FINGERPRINT_OK, [0x0A]), (FINGERPRINT_OK, [0, 0, 7])]⟩

/-- C9 counterexample: the claim says `matchWithTemplate` never returns
without first polling until the device reports no finger.  On the
upload-failure branch (FingerPrint.cpp line 650, `return 3`) the code
returns immediately: in this run the quality loop succeeds, the upload is
refused (ack payload byte 0x01), the orchestrator returns 3 and its trace
holds no finger-removal wait. -/
theorem claim_C9_counterexample :
    (matchWithTemplate true FINGERPRINT_OK 0x01 [] [0] [0] []).code = 3 ∧
    (matchWithTemplate true FINGERPRINT_OK 0x01 [] [0] [0] []).trace = [] ∧
    MEvent.removalWait ∉ (matchWithTemplate true FINGERPRINT_OK 0x01 [] [0] [0] []).trace := by
  refine ⟨by decide, by decide, by decide⟩

/-- C9, amended: `matchWithTemplate` awaits finger removal before
returning on every success branch and on every no-match branch in which
the retry match command was issued (and, as the counterexample shows,
some early-failure branches — capture timeout 1, upload failure 3, match
response failure 5 and the retry re-acquisition/conversion failures 4 —
return without awaiting removal). -/
theorem claim_C9_removal_wait_amended (upSerial : Bool)
    (upAckResult upAckData0 : Byte) (storedTemplate imgs tzs : List Byte)
    (acks : List (Byte × List Byte)) (r : MatchResult)
    (hr : matchWithTemplate upSerial upAckResult upAckData0 storedTemplate imgs tzs
        acks = r)
    (h : r.code = 0 ∨ (r.code = 4 ∧ r.trace.count .matchCmd = 2)) :
    MEvent.removalWait ∈ r.trace := by
  unfold matchWithTemplate at hr
  repeat' split at hr
  all_goals rw [← hr] at h ⊢
  all_goals simp [List.count_cons, List.count_nil] at h ⊢

/-- Witness for the amended C9: the first-attempt success run awaits
removal. -/
theorem claim_C9_removal_wait_amended_witness :
    MEvent.removalWait ∈
      (⟨0, some 300, [.matchCmd, .removalWait]⟩ : MatchResult).trace :=
  claim_C9_removal_wait_amended true FINGERPRINT_OK FINGERPRINT_OK [] [0] [0]
    [(FINGERPRINT_OK, [0, 1, 44])] ⟨0, some 300, [.matchCmd, .removalWait]⟩
    (by decide) (by decide)

end FP
